import Mathlib

/-!
Shallow embedding of the checkmate client core: the zustand game store
(`src/frontend/src/lib/store.ts`), the play page's websocket message handler,
the board-interaction resolver (`src/frontend/src/components/ChessBoard.tsx`)
and the websocket transport hook (`src/frontend/src/hooks/useWebSocket.ts`).

The chess.js rules engine is an external collaborator (consumed, not
implemented, by the repository), so it is abstracted as a type `E` together
with a move-application function `E → Move → Option E` (chess.move returns a
truthy result exactly when the move is legal, mutating the engine state) and a
destination query `E → String → List String` (the `to` squares of
chess.moves({square, verbose:true}), in generation order).
-/

namespace Checkmate

/-- A candidate move as built by the board component and carried on the wire:
from square, to square and an optional promotion piece. -/
structure Move where
  fromSq : String
  toSq : String
  promotion : Option String
deriving DecidableEq

/-- The game slice of the zustand store (`store.ts`): gameId, opponent, the
chess.js instance handle, and the turn-ownership flag. `null` fields become
`Option.none`. -/
structure GameState (E : Type) where
  gameId : Option String
  opponent : Option String
  chess : Option E
  isMyTurn : Bool
deriving DecidableEq

/-- The default FEN argument of `setGame` in `store.ts`. -/
def startingFen : String :=
  "rnbqkbnr/pppppppp/8/8/8/8/PPPPPPPP/RNBQKBNR w KQkq - 0 1"

/-- `setGame(gameId, opponent, fen)` from `store.ts`: constructs a fresh chess
instance from `fen` and sets gameId, opponent and `isMyTurn = true`.
`newEngine` models the `new Chess(fen)` constructor. -/
def setGame {E : Type} (newEngine : String → E) (s : GameState E)
    (gameId opponent fen : String) : GameState E :=
  { s with gameId := some gameId, opponent := some opponent,
           chess := some (newEngine fen), isMyTurn := true }

/-- Whether `chess && chess.move(move)` is truthy in `makeMove` of `store.ts`:
the store holds a chess instance and the engine accepts the move. -/
def accepts {E : Type} (emove : E → Move → Option E) (s : GameState E)
    (m : Move) : Bool :=
  match s.chess with
  | none => false
  | some e => (emove e m).isSome

/-- `makeMove(move)` from `store.ts`: if a chess instance is present and
`chess.move(move)` succeeds (mutating the instance to the post-move position),
flip `isMyTurn`; otherwise do nothing. -/
def makeMove {E : Type} (emove : E → Move → Option E) (s : GameState E)
    (m : Move) : GameState E :=
  match s.chess with
  | none => s
  | some e =>
    match emove e m with
    | none => s
    | some e2 => { s with chess := some e2, isMyTurn := !s.isMyTurn }

/-- `endGame()` from `store.ts`: resets the whole game slice. -/
def endGame {E : Type} (s : GameState E) : GameState E :=
  { s with gameId := none, opponent := none, chess := none, isMyTurn := false }

/-- Folding `makeMove` over a sequence of candidate moves. -/
def playMoves {E : Type} (emove : E → Move → Option E) (s : GameState E)
    (ms : List Move) : GameState E :=
  ms.foldl (makeMove emove) s

/-- How many moves of the sequence are accepted by the engine when played in
order from state `s`. -/
def acceptedCount {E : Type} (emove : E → Move → Option E) :
    GameState E → List Move → Nat
  | _, [] => 0
  | s, m :: ms =>
    (if accepts emove s m then 1 else 0) +
      acceptedCount emove (makeMove emove s m) ms

/-- The inbound server messages dispatched by `handleWebSocketMessage` on the
play page: `match_found`, `move`, `game_over`, and anything else (ignored). -/
inductive ServerMsg where
  | matchFound (gameId opponent : String)
  | moveMsg (gameId : String) (m : Move)
  | gameOver (gameId : String) (message : String)
  | other
deriving DecidableEq

/-- The play page state touched by `handleWebSocketMessage`: the store's game
slice plus the page-local `isMatchmaking` and `statusMessage`. -/
structure PageState (E : Type) where
  game : GameState E
  isMatchmaking : Bool
  statusMessage : String
deriving DecidableEq

/-- `handleWebSocketMessage(data)` from the play page: `match_found` calls
`setGame` (with the default starting FEN) and clears matchmaking; `move` and
`game_over` are guarded by `data.gameId === gameId` and otherwise ignored. -/
def handleWebSocketMessage {E : Type} (newEngine : String → E)
    (emove : E → Move → Option E) (p : PageState E) (msg : ServerMsg) :
    PageState E :=
  match msg with
  | .matchFound gid opp =>
      { p with game := setGame newEngine p.game gid opp startingFen,
               isMatchmaking := false,
               statusMessage := "Game started!" }
  | .moveMsg gid m =>
      if p.game.gameId = some gid then
        { p with game := makeMove emove p.game m,
                 statusMessage :=
                   "Opponent moved: " ++ m.fromSq ++ " to " ++ m.toSq }
      else p
  | .gameOver gid message =>
      if p.game.gameId = some gid then
        { p with statusMessage := message, game := endGame p.game }
      else p
  | .other => p

/-- Insertion of one key into a JS object's key list: square names are not
integer-like, so Object.keys preserves first-insertion order and a repeated
assignment keeps the original position. -/
def insertKey (ks : List String) (k : String) : List String :=
  if k ∈ ks then ks else ks ++ [k]

/-- The key list of the object built by `getMoveOptions(square)` in
`ChessBoard.tsx`: one key per `move.to` of `chess.moves({square, verbose})`
(in order), and finally `square` itself (the yellow selection highlight). -/
def getMoveOptionsKeys (dests : List String) (square : String) : List String :=
  insertKey (dests.foldl insertKey []) square

/-- The component-local React state of `ChessBoard.tsx`: the key lists of the
`optionSquares` and `rightClickedSquares` style objects. -/
structure BoardState where
  optionSquares : List String
  rightClicked : List String
deriving DecidableEq

/-- The observable outcome of one board-interaction handler call: the updated
component state, the move handed to `onMove` (if any), the engine state after
the call, and the handler's boolean result (`onPieceDrop` returns it;
`makeAMove` computes it in both paths). -/
structure ClickOutcome (E : Type) where
  board : BoardState
  emitted : Option Move
  engine : E
  didMove : Bool
deriving DecidableEq

/-- `onSquareClick(square)` from `ChessBoard.tsx`. It clears the right-click
highlights, returns early when it is not the local player's turn, re-selects
(querying `getMoveOptions`) when the clicked square is not a key of
`optionSquares`, and otherwise builds the candidate
`{from: Object.keys(optionSquares)[0], to: square, promotion: "q"}` and plays
it through `makeAMove` (which calls `onMove` exactly when the engine accepts).
The `optionSquares` read inside the handler is the pre-call React state, so
the candidate's `from` comes from the key list before it is cleared. -/
def onSquareClick {E : Type} (emove : E → Move → Option E)
    (emoves : E → String → List String) (isMyTurn : Bool) (e : E)
    (b : BoardState) (square : String) : ClickOutcome E :=
  let b1 : BoardState := { b with rightClicked := [] }
  if !isMyTurn then
    { board := b1, emitted := none, engine := e, didMove := false }
  else if square ∉ b1.optionSquares then
    { board := { b1 with optionSquares := getMoveOptionsKeys (emoves e square) square },
      emitted := none, engine := e, didMove := false }
  else
    let m : Move :=
      { fromSq := (b1.optionSquares.head?).getD "", toSq := square,
        promotion := some "q" }
    match emove e m with
    | some e2 =>
        { board := { b1 with optionSquares := [] }, emitted := some m,
          engine := e2, didMove := true }
    | none =>
        { board := { b1 with optionSquares := [] }, emitted := none,
          engine := e, didMove := false }

/-- `onPieceDrop(sourceSquare, targetSquare)` from `ChessBoard.tsx`: returns
`false` immediately when it is not the local player's turn; otherwise plays
`{from: sourceSquare, to: targetSquare, promotion: "q"}` through `makeAMove`,
clears `optionSquares`, and returns whether the move was made. -/
def onPieceDrop {E : Type} (emove : E → Move → Option E) (isMyTurn : Bool)
    (e : E) (b : BoardState) (sourceSquare targetSquare : String) :
    ClickOutcome E :=
  if !isMyTurn then
    { board := b, emitted := none, engine := e, didMove := false }
  else
    let m : Move :=
      { fromSq := sourceSquare, toSq := targetSquare, promotion := some "q" }
    match emove e m with
    | some e2 =>
        { board := { b with optionSquares := [] }, emitted := some m,
          engine := e2, didMove := true }
    | none =>
        { board := { b with optionSquares := [] }, emitted := none,
          engine := e, didMove := false }

/-- The readyState of the socket held in `ws.current` in `useWebSocket.ts`. -/
inductive SockPhase where
  | connecting
  | opened
  | closingPh
  | closedPh
deriving DecidableEq

/-- The state of the `useWebSocket` hook: the current socket (if any) with its
readyState, the `isConnected` React flag, whether `reconnectTimeoutRef` holds
an uncancelled unfired timer, counters for `connect()` runs, reconnect timers
armed by `onclose`, and `onDisconnect` notifications, plus the messages
actually written to the underlying socket by `sendMessage` and the count of
warnings it reported for dropped sends. -/
structure WsState where
  sock : Option SockPhase
  isConnected : Bool
  pendingTimer : Bool
  connectCalls : Nat
  reconnectsScheduled : Nat
  disconnectNotices : Nat
  sent : List String
  warnings : Nat
deriving DecidableEq

/-- The hook state before the mount effect runs `connect()`. -/
def wsInit : WsState :=
  { sock := none, isConnected := false, pendingTimer := false,
    connectCalls := 0, reconnectsScheduled := 0, disconnectNotices := 0,
    sent := [], warnings := 0 }

/-- The body of `connect()` in `useWebSocket.ts`: replaces `ws.current` with a
fresh `new WebSocket(url)` (readyState CONNECTING) and installs handlers. -/
def connectCall (s : WsState) : WsState :=
  { s with sock := some .connecting, connectCalls := s.connectCalls + 1 }

/-- The asynchronous events of the hook: a call to `connect()`, the socket's
open event (`onopen`), the socket's close event (`onclose`), the reconnect
timer firing, and a call to `disconnect()`. -/
inductive WsEvent where
  | connectEvt
  | openEvt
  | closeEvt
  | timerFire
  | disconnectEvt
deriving DecidableEq

/-- One event step of the hook; `none` means the event is not enabled in this
state (no socket to open or close, no pending timer to fire).
`openEvt` runs `onopen` (sets `isConnected`); `closeEvt` runs `onclose`
(clears `isConnected`, calls `onDisconnect`, and arms one reconnect timer via
`setTimeout(connect, 5000)`) — the handler stays attached to the socket, so
the close event fires whether the close was unexpected or initiated by
`disconnect()`; `timerFire` consumes the pending timer and runs `connect()`;
`disconnectEvt` runs `disconnect()`: `clearTimeout` on any pending timer,
then `ws.current.close()` on a live socket (its close event fires later). -/
def wsStep (s : WsState) (ev : WsEvent) : Option WsState :=
  match ev with
  | .connectEvt => some (connectCall s)
  | .openEvt =>
      match s.sock with
      | some .connecting => some { s with sock := some .opened, isConnected := true }
      | _ => none
  | .closeEvt =>
      match s.sock with
      | some .connecting | some .opened | some .closingPh =>
          some { s with
                  sock := some .closedPh, isConnected := false,
                  disconnectNotices := s.disconnectNotices + 1,
                  pendingTimer := true,
                  reconnectsScheduled := s.reconnectsScheduled + 1 }
      | _ => none
  | .timerFire =>
      if s.pendingTimer then some (connectCall { s with pendingTimer := false })
      else none
  | .disconnectEvt =>
      some { s with
              pendingTimer := false,
              sock := match s.sock with
                      | some .connecting => some .closingPh
                      | some .opened => some .closingPh
                      | x => x }

/-- Runs a sequence of events; fails if any event is not enabled. -/
def wsRun (s : WsState) (evs : List WsEvent) : Option WsState :=
  match evs with
  | [] => some s
  | ev :: rest =>
    match wsStep s ev with
    | none => none
    | some s2 => wsRun s2 rest

/-- `sendMessage(message)` from `useWebSocket.ts`: delivers the message to the
underlying socket exactly when `ws.current` exists with readyState OPEN, and
otherwise reports a warning and drops it — there is no queue field at all, so
a dropped message is gone. -/
def sendMessage (s : WsState) (msg : String) : WsState :=
  if s.sock = some SockPhase.opened then { s with sent := s.sent ++ [msg] }
  else { s with warnings := s.warnings + 1 }

/-- Folding `sendMessage` over a list of outbound messages. -/
def sendAll (s : WsState) (msgs : List String) : WsState :=
  msgs.foldl sendMessage s

/-- A miniature concrete instance of the abstract engine interface, used to
evaluate the embedding on concrete inputs: the engine state is the list of
moves played so far; in the initial state exactly the two pawn moves
e2 to e3 and e2 to e4 are legal (as in the real starting position), and
afterwards nothing is. -/
abbrev Toy := List Move

/-- Legality table of the miniature engine. -/
def toyLegal (e : Toy) (m : Move) : Bool :=
  e.isEmpty && m.fromSq == "e2" && (m.toSq == "e3" || m.toSq == "e4")

/-- Move application of the miniature engine. -/
def toyMove (e : Toy) (m : Move) : Option Toy :=
  if toyLegal e m then some (e ++ [m]) else none

/-- Destination query of the miniature engine: from the initial state the
square e2 has destinations e3 and e4, in that order. -/
def toyDests (e : Toy) (square : String) : List String :=
  if e.isEmpty && square == "e2" then ["e3", "e4"] else []

/-- Constructor of the miniature engine (stands for `new Chess(fen)`). -/
def toyNew (_fen : String) : Toy := []

/-- A concrete page state in an active game `g1` against opponent `b`, with
the local side to move. -/
def samplePage : PageState Toy :=
  { game := { gameId := some "g1", opponent := some "b",
              chess := some ([] : Toy), isMyTurn := true },
    isMatchmaking := false, statusMessage := "" }

/-- A concrete page state while matchmaking is in progress. -/
def searchingPage : PageState Toy :=
  { game := { gameId := none, opponent := none, chess := none,
              isMyTurn := false },
    isMatchmaking := true, statusMessage := "Looking for opponent..." }

/-- The pawn move e2 to e4, legal in the miniature engine's initial state. -/
def pawnE4 : Move := { fromSq := "e2", toSq := "e4", promotion := some "q" }

/-- A move the miniature engine rejects in every state. -/
def badMove : Move := { fromSq := "a1", toSq := "a2", promotion := none }

/-- The board component state with no selection and no highlights. -/
def boardEmpty : BoardState := { optionSquares := [], rightClicked := [] }

/-- A transport state whose socket is open (readyState OPEN). -/
def wsOpened : WsState := { wsInit with sock := some SockPhase.opened }

/-- Helper: `makeMove` leaves the store unchanged whenever the guard
`chess && chess.move(move)` is falsy. -/
theorem makeMove_rejected_eq {E : Type} (emove : E → Move → Option E)
    (s : GameState E) (m : Move) (h : accepts emove s m = false) :
    makeMove emove s m = s := by
  unfold accepts at h
  cases hc : s.chess with
  | none => simp [makeMove, hc]
  | some e =>
      rw [hc] at h
      simp only [] at h
      cases he : emove e m with
      | none => simp [makeMove, hc, he]
      | some e2 => rw [he] at h; simp at h

/-- Helper: the turn flag after `makeMove` is flipped exactly when the guard
`chess && chess.move(move)` is truthy. -/
theorem makeMove_turn_eq {E : Type} (emove : E → Move → Option E)
    (s : GameState E) (m : Move) :
    (makeMove emove s m).isMyTurn =
      if accepts emove s m then !s.isMyTurn else s.isMyTurn := by
  cases hc : s.chess with
  | none => simp [makeMove, accepts, hc]
  | some e => cases he : emove e m <;> simp [makeMove, accepts, hc, he]

/-- C1: for every `match_found` message received while matchmaking is in
progress, `handleWebSocketMessage` initializes a new session — gameId and
opponent from the message, a fresh chess instance at the standard starting
position — and sets `isMyTurn = true` on the receiving client. -/
theorem matchFound_initializes_session {E : Type} (newEngine : String → E)
    (emove : E → Move → Option E) (p : PageState E) (gid opp : String)
    (_hsearch : p.isMatchmaking = true) :
    (handleWebSocketMessage newEngine emove p (.matchFound gid opp)).game =
      { gameId := some gid, opponent := some opp,
        chess := some (newEngine startingFen), isMyTurn := true } :=
  rfl

/-- Witness for C1 at a concrete searching page and message. -/
theorem matchFound_initializes_session_witness :
    searchingPage.isMatchmaking = true ∧
    (handleWebSocketMessage toyNew toyMove searchingPage
        (.matchFound "g1" "opp")).game =
      { gameId := some "g1", opponent := some "opp",
        chess := some (toyNew startingFen), isMyTurn := true } :=
  ⟨rfl, matchFound_initializes_session toyNew toyMove searchingPage "g1" "opp" rfl⟩

/-- C2: an inbound `move` or `game_over` message whose gameId differs from
the current session's gameId leaves the whole page state — gameId, opponent,
chess instance, `isMyTurn`, and even the status message — unchanged, in every
phase; the handler is total, so no error is raised. -/
theorem foreign_gameId_message_noop {E : Type} (newEngine : String → E)
    (emove : E → Move → Option E) (p : PageState E) (gid : String) (m : Move)
    (msgText : String) (h : p.game.gameId ≠ some gid) :
    handleWebSocketMessage newEngine emove p (.moveMsg gid m) = p ∧
    handleWebSocketMessage newEngine emove p (.gameOver gid msgText) = p := by
  constructor <;> simp [handleWebSocketMessage, h]

/-- Witness for C2: a message for game `g2` while the session is `g1`. -/
theorem foreign_gameId_message_noop_witness :
    handleWebSocketMessage toyNew toyMove samplePage (.moveMsg "g2" pawnE4) =
      samplePage ∧
    handleWebSocketMessage toyNew toyMove samplePage (.gameOver "g2" "x") =
      samplePage :=
  foreign_gameId_message_noop toyNew toyMove samplePage "g2" pawnE4 "x"
    (by decide)

/-- C3: `isMyTurn` flips on exactly the accepted moves: a single `makeMove`
flips it precisely when the engine accepts the candidate, and over any
sequence of candidates the final `isMyTurn` is the initial one flipped once
per accepted move — so turn ownership alternates strictly and never stays
with one side across two consecutive accepted moves. -/
theorem turnOwner_alternates {E : Type} (emove : E → Move → Option E) :
    (∀ (s : GameState E) (m : Move),
        (makeMove emove s m).isMyTurn =
          if accepts emove s m then !s.isMyTurn else s.isMyTurn) ∧
    (∀ (s : GameState E) (ms : List Move),
        (playMoves emove s ms).isMyTurn =
          if acceptedCount emove s ms % 2 = 0 then s.isMyTurn
          else !s.isMyTurn) := by
  refine ⟨makeMove_turn_eq emove, ?_⟩
  intro s ms
  induction ms generalizing s with
  | nil => simp [playMoves, acceptedCount]
  | cons m ms ih =>
      have hplay : playMoves emove s (m :: ms) =
          playMoves emove (makeMove emove s m) ms := rfl
      have hcount : acceptedCount emove s (m :: ms) =
          (if accepts emove s m then 1 else 0) +
            acceptedCount emove (makeMove emove s m) ms := rfl
      rw [hplay, ih (makeMove emove s m), hcount, makeMove_turn_eq emove s m]
      cases hb : accepts emove s m with
      | false =>
          simp
      | true =>
          simp only [if_pos]
          rcases Nat.mod_two_eq_zero_or_one
              (acceptedCount emove (makeMove emove s m) ms) with hk | hk
          · have h1 : (1 + acceptedCount emove (makeMove emove s m) ms) % 2 = 1 := by
              omega
            simp [hk, h1]
          · have h1 : (1 + acceptedCount emove (makeMove emove s m) ms) % 2 = 0 := by
              omega
            simp [hk, h1]

/-- C4 counterexample: a remote `move` message targeting the current session
while `isMyTurn = true` (turn owner local) is not dropped — the handler
applies it, the engine accepts, and the session state changes (`isMyTurn`
flips to `false` and the engine state advances). -/
theorem remote_move_on_local_turn_changes_state :
    samplePage.game.isMyTurn = true ∧
    (handleWebSocketMessage toyNew toyMove samplePage
        (.moveMsg "g1" pawnE4)).game.isMyTurn = false ∧
    (handleWebSocketMessage toyNew toyMove samplePage
        (.moveMsg "g1" pawnE4)).game.chess = some [pawnE4] := by
  refine ⟨rfl, ?_, ?_⟩ <;> decide

/-- C4 as amended: every remote `move` message whose gameId equals the
current session's gameId is handed to `makeMove` unconditionally — it is
applied (position updated, `isMyTurn` flipped) exactly when the engine
accepts it, regardless of whether turn ownership is local or remote; there is
no drop-on-local-turn check. -/
theorem remote_move_applied_unconditionally {E : Type}
    (newEngine : String → E) (emove : E → Move → Option E) (p : PageState E)
    (gid : String) (m : Move) (h : p.game.gameId = some gid) :
    (handleWebSocketMessage newEngine emove p (.moveMsg gid m)).game =
      makeMove emove p.game m := by
  simp [handleWebSocketMessage, h]

/-- Witness for the amended C4 at a concrete session with the local side to
move. -/
theorem remote_move_applied_unconditionally_witness :
    (handleWebSocketMessage toyNew toyMove samplePage
        (.moveMsg "g1" pawnE4)).game = makeMove toyMove samplePage.game pawnE4 :=
  remote_move_applied_unconditionally toyNew toyMove samplePage "g1" pawnE4 rfl

/-- C5: with `isMyTurn = false`, both board-interaction handlers reject the
attempt: `onSquareClick` only clears the right-click highlights and
`onPieceDrop` returns `false` to its caller untouched; neither hands a move
to `onMove` (so nothing is sent) and the engine position is unchanged. -/
theorem not_my_turn_rejects_input {E : Type} (emove : E → Move → Option E)
    (emoves : E → String → List String) (e : E) (b : BoardState)
    (square src tgt : String) :
    onSquareClick emove emoves false e b square =
      { board := { b with rightClicked := [] }, emitted := none, engine := e,
        didMove := false } ∧
    onPieceDrop emove false e b src tgt =
      { board := b, emitted := none, engine := e, didMove := false } :=
  ⟨rfl, rfl⟩

/-- C6 at the failing input: from the initial position, clicking the own pawn
square e2 highlights its destinations and the selection as
`["e3", "e4", "e2"]`; then clicking the highlighted destination e4 emits no
move at all (the candidate is built with `from = "e3"`, the first
`Object.keys` entry, which the engine rejects) instead of emitting
`{from: "e2", to: "e4"}` once as the claim states. -/
theorem click_highlighted_destination_emits_no_move :
    (onSquareClick toyMove toyDests true ([] : Toy) boardEmpty
        "e2").board.optionSquares = ["e3", "e4", "e2"] ∧
    (onSquareClick toyMove toyDests true
        (onSquareClick toyMove toyDests true ([] : Toy) boardEmpty "e2").engine
        (onSquareClick toyMove toyDests true ([] : Toy) boardEmpty "e2").board
        "e4").emitted = none := by
  refine ⟨?_, ?_⟩ <;> decide

/-- C7 counterexample: a `game_over` message for the current session does not
leave the session queryable — `endGame` immediately nulls the gameId and the
opponent (and the chess instance), so only the status message survives. -/
theorem gameOver_clears_session_immediately :
    (handleWebSocketMessage toyNew toyMove samplePage
        (.gameOver "g1" "Checkmate")).game.gameId = none ∧
    (handleWebSocketMessage toyNew toyMove samplePage
        (.gameOver "g1" "Checkmate")).game.opponent = none ∧
    (handleWebSocketMessage toyNew toyMove samplePage
        (.gameOver "g1" "Checkmate")).statusMessage = "Checkmate" := by
  refine ⟨?_, ?_, ?_⟩ <;> decide

/-- C7 as amended: for every `game_over` message targeting the current
session, turn ownership is cleared and the whole session is reset at once —
gameId, opponent and the chess instance all become null — while the terminal
summary is kept only in the page's status message until something overwrites
it. -/
theorem gameOver_resets_session {E : Type} (newEngine : String → E)
    (emove : E → Move → Option E) (p : PageState E) (gid msgText : String)
    (h : p.game.gameId = some gid) :
    handleWebSocketMessage newEngine emove p (.gameOver gid msgText) =
      { p with
          game := { gameId := none, opponent := none, chess := none,
                    isMyTurn := false },
          statusMessage := msgText } := by
  simp [handleWebSocketMessage, h, endGame]

/-- Witness for the amended C7 at a concrete active session. -/
theorem gameOver_resets_session_witness :
    handleWebSocketMessage toyNew toyMove samplePage
        (.gameOver "g1" "Checkmate") =
      { samplePage with
          game := { gameId := none, opponent := none, chess := none,
                    isMyTurn := false },
          statusMessage := "Checkmate" } :=
  gameOver_resets_session toyNew toyMove samplePage "g1" "Checkmate" rfl

/-- Helper: `sendMessage` never touches the socket handle, so connectivity is
stable across a batch of sends. -/
theorem sendMessage_sock_eq (s : WsState) (msg : String) :
    (sendMessage s msg).sock = s.sock := by
  unfold sendMessage
  by_cases h : s.sock = some SockPhase.opened <;> simp [h]

/-- C8: sends are best-effort with no queue. While the socket is not open,
a whole batch of `sendMessage` calls delivers nothing to the socket and
reports one warning per message — the dropped messages appear nowhere in the
state, so they can never be resent later. While the socket is open, every
message of the batch is delivered to the underlying socket in order. -/
theorem send_best_effort (s : WsState) (msgs : List String) :
    (s.sock ≠ some SockPhase.opened →
      (sendAll s msgs).sent = s.sent ∧
        (sendAll s msgs).warnings = s.warnings + msgs.length) ∧
    (s.sock = some SockPhase.opened →
      (sendAll s msgs).sent = s.sent ++ msgs) := by
  induction msgs generalizing s with
  | nil => simp [sendAll]
  | cons msg rest ih =>
      have hstep : sendAll s (msg :: rest) = sendAll (sendMessage s msg) rest :=
        rfl
      constructor
      · intro h
        have hmsg : sendMessage s msg = { s with warnings := s.warnings + 1 } := by
          simp [sendMessage, h]
        have hsock : (sendMessage s msg).sock ≠ some SockPhase.opened := by
          rw [sendMessage_sock_eq]; exact h
        have hrest := (ih (sendMessage s msg)).1 hsock
        rw [hstep]
        refine ⟨?_, ?_⟩
        · rw [hrest.1, hmsg]
        · rw [hrest.2, hmsg]
          simp [List.length]
          omega
      · intro h
        have hmsg : sendMessage s msg = { s with sent := s.sent ++ [msg] } := by
          simp [sendMessage, h]
        have hsock : (sendMessage s msg).sock = some SockPhase.opened := by
          rw [sendMessage_sock_eq]; exact h
        have hrest := (ih (sendMessage s msg)).2 hsock
        rw [hstep, hrest, hmsg]
        simp

/-- Witness for C8: two sends with no socket deliver nothing and warn twice;
two sends on an open socket are both delivered. -/
theorem send_best_effort_witness :
    ((sendAll wsInit ["a", "b"]).sent = wsInit.sent ∧
      (sendAll wsInit ["a", "b"]).warnings = wsInit.warnings + 2) ∧
    (sendAll wsOpened ["a", "b"]).sent = wsOpened.sent ++ ["a", "b"] :=
  ⟨(send_best_effort wsInit ["a", "b"]).1 (by decide),
   (send_best_effort wsOpened ["a", "b"]).2 rfl⟩

/-- C9 at the failing trace: after `connect()`, a successful open and then an
explicit `disconnect()`, the socket's close event still runs the attached
`onclose` handler, which notifies subscribers and arms a fresh reconnect
timer; when that timer fires, `connect()` runs a second time. So a reconnect
attempt does occur after `disconnect()` — `connectCalls` reaches 2 with only
one explicit connect in the trace — contradicting the claim that
`disconnect()` prevents any further attempt. -/
theorem disconnect_then_close_reconnects :
    wsRun wsInit [WsEvent.connectEvt, WsEvent.openEvt,
        WsEvent.disconnectEvt, WsEvent.closeEvt] =
      some { sock := some SockPhase.closedPh, isConnected := false,
             pendingTimer := true, connectCalls := 1,
             reconnectsScheduled := 1, disconnectNotices := 1,
             sent := [], warnings := 0 } ∧
    wsRun wsInit [WsEvent.connectEvt, WsEvent.openEvt,
        WsEvent.disconnectEvt, WsEvent.closeEvt, WsEvent.timerFire] =
      some { sock := some SockPhase.connecting, isConnected := false,
             pendingTimer := false, connectCalls := 2,
             reconnectsScheduled := 1, disconnectNotices := 1,
             sent := [], warnings := 0 } :=
  ⟨rfl, rfl⟩

/-- C10: whenever the store holds a chess instance and the engine rejects the
candidate (`chess.move` returns a falsy result), `makeMove` performs no state
update at all — the store, field for field, is exactly as before the call. -/
theorem rejected_move_leaves_state_unchanged {E : Type}
    (emove : E → Move → Option E) (s : GameState E) (e : E) (m : Move)
    (hc : s.chess = some e) (hr : emove e m = none) :
    makeMove emove s m = s := by
  simp [makeMove, hc, hr]

/-- Witness for C10: the miniature engine rejects `badMove`, and `makeMove`
returns the store unchanged. -/
theorem rejected_move_leaves_state_unchanged_witness :
    makeMove toyMove samplePage.game badMove = samplePage.game :=
  rejected_move_leaves_state_unchanged toyMove samplePage.game ([] : Toy)
    badMove rfl rfl

end Checkmate
